import Mathlib

/-!
Shallow embedding of `clippy_config/src/metadata.rs`.

Strings are modelled as `List Char`.  Rust byte positions coincide with
character positions here because every delimiter involved (`'.'`, the
`" Lint: "` marker, `", "`, `'\n'`, `' '`, `'_'`) is ASCII and the code
only splits at such delimiters.  A Rust panic (the `unwrap` inside
`to_markdown_paragraph`) is modelled by `Option`: `none` means the
rendering panics.
-/

namespace Clippy

/-- Unicode `White_Space` test used by Rust's `str::trim` and
`str::split_whitespace` (`char::is_whitespace`). -/
def rustIsWhitespace (c : Char) : Bool :=
  let n := c.toNat
  decide (n = 32) || (decide (9 ≤ n) && decide (n ≤ 13)) || decide (n = 133) ||
    decide (n = 160) || decide (n = 5760) ||
    (decide (8192 ≤ n) && decide (n ≤ 8202)) || decide (n = 8232) ||
    decide (n = 8233) || decide (n = 8239) || decide (n = 8287) || decide (n = 12288)

/-- Rust `str::trim`: drop leading and trailing whitespace. -/
def trimChars (s : List Char) : List Char :=
  ((s.dropWhile rustIsWhitespace).reverse.dropWhile rustIsWhitespace).reverse

/-- `u8::make_ascii_lowercase`, applied per character: `A`..`Z` map to
`a`..`z`, everything else is unchanged. -/
def asciiLower (c : Char) : Char :=
  if 65 ≤ c.toNat ∧ c.toNat ≤ 90 then Char.ofNat (c.toNat + 32) else c

/-- Rust `str::split(", ")`: leftmost, non-overlapping, exact-substring
split on the two-character separator comma-space.  Always returns at
least one piece. -/
def splitCommaSpace : List Char → List (List Char)
  | [] => [[]]
  | [c] => [[c]]
  | c1 :: c2 :: rest =>
    if c1 = ',' ∧ c2 = ' ' then
      [] :: splitCommaSpace rest
    else
      match splitCommaSpace (c2 :: rest) with
      | [] => [[c1]]
      | p :: ps => (c1 :: p) :: ps

/-- Rust `str::replace("\n ", "\n    ")`: every leftmost, non-overlapping
occurrence of newline-space becomes newline followed by four spaces. -/
def replaceNlSpace : List Char → List Char
  | [] => []
  | [c] => [c]
  | c1 :: c2 :: rest =>
    if c1 = '\n' ∧ c2 = ' ' then
      '\n' :: ' ' :: ' ' :: ' ' :: ' ' :: replaceNlSpace rest
    else
      c1 :: replaceNlSpace (c2 :: rest)

/-- The marker `DOC_START = " Lint: "` from `parse_config_field_doc`. -/
def DOC_START : List Char := " Lint: ".toList

/-- `parse_config_field_doc` from `metadata.rs`: if the comment starts
with `" Lint: "` and contains a `'.'`, split at the first `'.'`; the part
between the marker and the dot is lowercased and split on `", "` into the
lint list; the rest, with leading dots stripped, trimmed, and `"\n "`
rewritten to `"\n    "`, is the description.  Otherwise `none`. -/
def parse_config_field_doc (doc_comment : List Char) :
    Option (List (List Char) × List Char) :=
  if doc_comment.take DOC_START.length = DOC_START ∧ '.' ∈ doc_comment then
    let pre := doc_comment.takeWhile (fun c => c != '.')
    let documentation := doc_comment.dropWhile (fun c => c != '.')
    let lints := splitCommaSpace ((pre.map asciiLower).drop DOC_START.length)
    some (lints,
      replaceNlSpace (trimChars (documentation.dropWhile (fun c => c == '.'))))
  else
    none

/-- `to_kebab` from `metadata.rs`: `str::replace('_', "-")`. -/
def to_kebab (config_name : List Char) : List Char :=
  config_name.map (fun c => if c = '_' then '-' else c)

/-- The `ClippyConfiguration` struct from `metadata.rs`. -/
structure ClippyConfiguration where
  name : List Char
  config_type : List Char
  default : List Char
  lints : List (List Char)
  doc : List Char
  deprecation_reason : Option (List Char)
deriving DecidableEq, Repr

/-- The fallback description substituted by `ClippyConfiguration::new`
when parsing fails. -/
def ERROR_DOC : List Char := "[ERROR] MALFORMED DOC COMMENT".toList

/-- `ClippyConfiguration::new` from `metadata.rs`: run the doc parser,
fall back to the empty lint list and the error sentinel on `none`, and
kebab-case the name. -/
def ClippyConfiguration.new (name config_type default doc_comment : List Char)
    (deprecation_reason : Option (List Char)) : ClippyConfiguration :=
  let parsed := (parse_config_field_doc doc_comment).getD ([], ERROR_DOC)
  { name := to_kebab name
    config_type := config_type
    default := default
    lints := parsed.1
    doc := parsed.2
    deprecation_reason := deprecation_reason }

/-- The `fmt::Display` impl for `ClippyConfiguration`: one `writeln!`
with the format string `"* `{}`: `{}`(defaults to `{}`): {}"`. -/
def ClippyConfiguration.display (c : ClippyConfiguration) : List Char :=
  "* `".toList ++ c.name ++ "`: `".toList ++ c.config_type ++
    "`(defaults to `".toList ++ c.default ++ "`): ".toList ++ c.doc ++ "\n".toList

/-- `str::lines` helper: strip one trailing `'\r'` (used only for lines
that were terminated by `'\n'`, so that `"\r\n"` also counts as a line
ending). -/
def dropTrailingCr (l : List Char) : List Char :=
  if l.getLast? = some '\r' then l.dropLast else l

/-- Accumulator loop for `str::lines`; `cur` holds the current line
reversed. -/
def rustLinesCore : List Char → List Char → List (List Char)
  | cur, [] => [cur.reverse]
  | cur, c :: rest =>
    if c = '\n' then
      match rest with
      | [] => [dropTrailingCr cur.reverse]
      | _ :: _ => dropTrailingCr cur.reverse :: rustLinesCore [] rest
    else
      rustLinesCore (c :: cur) rest

/-- Rust `str::lines`: split at `'\n'` or `"\r\n"`; a final line ending
produces no trailing empty line; the empty string has no lines. -/
def rustLines : List Char → List (List Char)
  | [] => []
  | c :: rest => rustLinesCore [] (c :: rest)

/-- `line.strip_prefix("    ").unwrap_or(line)` from
`to_markdown_paragraph`. -/
def stripIndent (l : List Char) : List Char :=
  if l.take 4 = "    ".toList then l.drop 4 else l

/-- Join with `"\n"` (Rust `join("\n")`). -/
def joinNl (ls : List (List Char)) : List Char :=
  List.intercalate "\n".toList ls

/-- `name.split_whitespace().next()` from `to_markdown_paragraph`:
the first maximal whitespace-free token, or `none` when the string has
no non-whitespace character (in which case the Rust `unwrap` panics). -/
def firstToken (s : List Char) : Option (List Char) :=
  let t := s.dropWhile rustIsWhitespace
  if t.isEmpty then none else some (t.takeWhile (fun c => !(rustIsWhitespace c)))

/-- The rule-index base URL compiled into `to_markdown_paragraph`. -/
def LINT_INDEX_URL : List Char :=
  "https://rust-lang.github.io/rust-clippy/master/index.html".toList

/-- One bullet of the affected-lints list in `to_markdown_paragraph`:
`format!("* [`{name}`]({url}#{name})")` applied to the first
whitespace-delimited token; `none` models the `unwrap` panic. -/
def lintBullet (name : List Char) : Option (List Char) :=
  (firstToken name).map (fun tok =>
    "* [`".toList ++ tok ++ "`](".toList ++ LINT_INDEX_URL ++ "#".toList ++
      tok ++ ")".toList)

/-- The `iter().map(...).map(...).collect()` chain over `self.lints`;
`none` as soon as one lint name makes the `unwrap` panic. -/
def lintBullets : List (List Char) → Option (List (List Char))
  | [] => some []
  | l :: ls =>
    match lintBullet l, lintBullets ls with
    | some b, some bs => some (b :: bs)
    | _, _ => none

/-- Everything `to_markdown_paragraph` emits before the bullet list:
heading, de-indented description, default value, type, and the
affected-lints header. -/
def paraPrefix (c : ClippyConfiguration) : List Char :=
  "## `".toList ++ c.name ++ "`\n".toList ++
    joinNl ((rustLines c.doc).map stripIndent) ++
    "\n\n**Default Value:** `".toList ++ c.default ++ "` (`".toList ++
    c.config_type ++ "`)\n\n---\n**Affected lints:**\n".toList

/-- `ClippyConfiguration::to_markdown_paragraph`; `none` models the
panic of the `unwrap` on a lint name with no whitespace-free token. -/
def ClippyConfiguration.to_markdown_paragraph (c : ClippyConfiguration) :
    Option (List Char) :=
  (lintBullets c.lints).map (fun bullets =>
    paraPrefix c ++ joinNl bullets ++ "\n\n".toList)

/-- The book base URL compiled into `to_markdown_link`. -/
def BOOK_CONFIGS_PATH : List Char :=
  "https://doc.rust-lang.org/clippy/lint_configuration.html".toList

/-- `ClippyConfiguration::to_markdown_link`:
`format!("[`{}`]: {BOOK_CONFIGS_PATH}#{}", self.name, self.name)`. -/
def ClippyConfiguration.to_markdown_link (c : ClippyConfiguration) : List Char :=
  "[`".toList ++ c.name ++ "`]: ".toList ++ BOOK_CONFIGS_PATH ++ "#".toList ++ c.name

/-! Concrete inputs used by individual claims. -/

/-- The round-trip scenario input: marker, two lint names, then prose
whose continuation line is indented by four spaces. -/
def c2Input : List Char :=
  " Lint: FOO_BAR, BAZ. This does a thing.\n    With detail.".toList

/-- A doc comment that matches the convention but has nothing after the
terminator. -/
def c5Bad : List Char := " Lint: FOO.".toList

/-- A record built from a comment whose lint-name segment is empty, so
its lint list is `[""]`. -/
def c6Record : ClippyConfiguration :=
  ClippyConfiguration.new "x".toList "t".toList "d".toList " Lint: . D".toList none

/-- A record built from a well-formed comment. -/
def c6Good : ClippyConfiguration :=
  ClippyConfiguration.new "x".toList "t".toList "d".toList
    " Lint: FOO_BAR. Doc.".toList none

/-- A well-formed parser input for the description-formula claim. -/
def c3Example : List Char := " Lint: ABC. Some doc.".toList

/-- A record whose lint list is the single string `"foo_bar lint"`. -/
def c8Record : ClippyConfiguration :=
  { name := "n".toList
    config_type := "t".toList
    default := "d".toList
    lints := ["foo_bar lint".toList]
    doc := "doc".toList
    deprecation_reason := none }

/-- A concrete record for the determinism claim. -/
def c9Record : ClippyConfiguration :=
  ClippyConfiguration.new "max_line_length".toList "a whole number".toList
    "80".toList " Lint: LINE_TOO_LONG. Maximum line length.".toList none

/-- `splitCommaSpace` always yields at least one piece, mirroring
`str::split`, which never returns an empty iterator. -/
theorem splitCommaSpace_ne_nil : ∀ s : List Char, splitCommaSpace s ≠ []
  | [] => by simp [splitCommaSpace]
  | [c] => by simp [splitCommaSpace]
  | c1 :: c2 :: rest => by
    unfold splitCommaSpace
    split
    · simp
    · split <;> simp

/-- Claim C1: for every doc comment that does not start with `" Lint: "`
or contains no `'.'`, `parse_config_field_doc` returns `none`, and
`ClippyConfiguration::new` builds a record with an empty lint list and
the malformed-comment sentinel as its doc; no error propagates. -/
theorem C1_parse_failure_fallback
    (name config_type default doc_comment : List Char)
    (dep : Option (List Char))
    (h : doc_comment.take DOC_START.length ≠ DOC_START ∨ '.' ∉ doc_comment) :
    parse_config_field_doc doc_comment = none ∧
    (ClippyConfiguration.new name config_type default doc_comment dep).lints = [] ∧
    (ClippyConfiguration.new name config_type default doc_comment dep).doc =
      ERROR_DOC := by
  have hc : ¬ (doc_comment.take DOC_START.length = DOC_START ∧
      '.' ∈ doc_comment) := by
    rintro ⟨h1, h2⟩
    rcases h with h | h
    · exact h h1
    · exact h h2
  have hnone : parse_config_field_doc doc_comment = none := by
    simp [parse_config_field_doc, hc]
  refine ⟨hnone, ?_, ?_⟩ <;> simp [ClippyConfiguration.new, hnone]

/-- Claim C1 witness at the spec's edge-case input `"No marker here."`. -/
theorem C1_witness :
    ("No marker here.".toList.take DOC_START.length ≠ DOC_START ∨
      '.' ∉ "No marker here.".toList) ∧
    parse_config_field_doc "No marker here.".toList = none ∧
    (ClippyConfiguration.new "w".toList "t".toList "d".toList
      "No marker here.".toList none).lints = [] ∧
    (ClippyConfiguration.new "w".toList "t".toList "d".toList
      "No marker here.".toList none).doc = ERROR_DOC :=
  ⟨Or.inl (by decide),
    C1_parse_failure_fallback "w".toList "t".toList "d".toList
      "No marker here.".toList none (Or.inl (by decide))⟩

/-- Claim C2, counterexample: on the round-trip input the parser does
NOT return the description `"This does a thing.\n    With detail."`
claimed by the spec — `replace("\n ", "\n    ")` adds four spaces to the
already-indented continuation line. -/
theorem C2_counterexample :
    parse_config_field_doc c2Input ≠
      some (["foo_bar".toList, "baz".toList],
        "This does a thing.\n    With detail.".toList) := by
  decide

/-- Claim C2, amended: the parser returns the lint list
`["foo_bar", "baz"]` and the description
`"This does a thing.\n       With detail."` — newline plus seven
spaces, since the rewrite turns the newline-space pair into newline plus
four spaces and the remaining three source spaces follow. -/
theorem C2_roundtrip_amended :
    parse_config_field_doc c2Input =
      some (["foo_bar".toList, "baz".toList],
        "This does a thing.\n       With detail.".toList) := by
  decide

/-- Claim C3: for every accepted comment, the description is the text
from the first `'.'` on, with leading `'.'` characters stripped, trimmed
of surrounding whitespace, and every newline-space occurrence rewritten
to newline plus four spaces. -/
theorem C3_description_formula (s : List Char)
    (h1 : s.take DOC_START.length = DOC_START) (h2 : '.' ∈ s) :
    ∃ lints, parse_config_field_doc s =
      some (lints,
        replaceNlSpace (trimChars
          ((s.dropWhile (fun c => c != '.')).dropWhile (fun c => c == '.')))) := by
  refine ⟨splitCommaSpace
    (((s.takeWhile (fun c => c != '.')).map asciiLower).drop
      DOC_START.length), ?_⟩
  unfold parse_config_field_doc
  rw [if_pos ⟨h1, h2⟩]

/-- Claim C3 witness at a concrete accepted comment. -/
theorem C3_witness :
    (c3Example.take DOC_START.length = DOC_START) ∧ ('.' ∈ c3Example) ∧
    ∃ lints, parse_config_field_doc c3Example =
      some (lints,
        replaceNlSpace (trimChars
          ((c3Example.dropWhile (fun c => c != '.')).dropWhile
            (fun c => c == '.')))) :=
  ⟨by decide, by decide, C3_description_formula c3Example (by decide) (by decide)⟩

/-- Claim C4: for every accepted comment, the lint list is the substring
strictly between the marker and the first `'.'`, lowercased and split on
the exact separator `", "`, preserving order with no extra trimming. -/
theorem C4_lint_list_formula (s : List Char)
    (h1 : s.take DOC_START.length = DOC_START) (h2 : '.' ∈ s) :
    ∃ desc, parse_config_field_doc s =
      some (splitCommaSpace
        (((s.takeWhile (fun c => c != '.')).drop DOC_START.length).map
          asciiLower), desc) := by
  refine ⟨replaceNlSpace (trimChars
    ((s.dropWhile (fun c => c != '.')).dropWhile (fun c => c == '.'))), ?_⟩
  unfold parse_config_field_doc
  rw [if_pos ⟨h1, h2⟩, List.map_drop]

/-- Claim C4 witness at a concrete accepted comment. -/
theorem C4_witness :
    (c2Input.take DOC_START.length = DOC_START) ∧ ('.' ∈ c2Input) ∧
    ∃ desc, parse_config_field_doc c2Input =
      some (splitCommaSpace
        (((c2Input.takeWhile (fun c => c != '.')).drop DOC_START.length).map
          asciiLower), desc) :=
  ⟨by decide, by decide, C4_lint_list_formula c2Input (by decide) (by decide)⟩

/-- Claim C5, counterexample: the comment `" Lint: FOO."` matches the
convention (marker present, `'.'` present) yet the constructed record's
doc string is empty, refuting "doc is non-empty" for well-formed
comments. -/
theorem C5_counterexample :
    (c5Bad.take DOC_START.length = DOC_START ∧ '.' ∈ c5Bad) ∧
    (ClippyConfiguration.new "x".toList "t".toList "d".toList c5Bad
      none).doc = [] := by
  decide

/-- Claim C5, amended: when the comment matches the convention the
record's lint list is non-empty (its doc may still be empty, e.g. when
nothing follows the terminator); when it does not match, the lint list
is empty and the doc is the sentinel; a record is produced in both
cases. -/
theorem C5_record_invariant_amended
    (name config_type default doc_comment : List Char)
    (dep : Option (List Char)) :
    ((doc_comment.take DOC_START.length = DOC_START ∧ '.' ∈ doc_comment) →
      (ClippyConfiguration.new name config_type default doc_comment
        dep).lints ≠ []) ∧
    (¬ (doc_comment.take DOC_START.length = DOC_START ∧ '.' ∈ doc_comment) →
      (ClippyConfiguration.new name config_type default doc_comment
        dep).lints = [] ∧
      (ClippyConfiguration.new name config_type default doc_comment
        dep).doc = ERROR_DOC) := by
  constructor
  · intro hc
    have : parse_config_field_doc doc_comment =
        some (splitCommaSpace
          (((doc_comment.takeWhile (fun c => c != '.')).map asciiLower).drop
            DOC_START.length),
          replaceNlSpace (trimChars
            ((doc_comment.dropWhile (fun c => c != '.')).dropWhile
              (fun c => c == '.')))) := by
      unfold parse_config_field_doc
      rw [if_pos hc]
    simp [ClippyConfiguration.new, this]
    exact splitCommaSpace_ne_nil _
  · intro hc
    have hnone : parse_config_field_doc doc_comment = none := by
      simp [parse_config_field_doc, hc]
    simp [ClippyConfiguration.new, hnone]

/-- Claim C5 witness: a matching comment gives a non-empty lint list; a
non-matching one gives the empty list and the sentinel doc. -/
theorem C5_witness :
    ((ClippyConfiguration.new "a".toList "t".toList "d".toList
      " Lint: FOO. Doc.".toList none).lints ≠ []) ∧
    ((ClippyConfiguration.new "a".toList "t".toList "d".toList
      "bad".toList none).lints = [] ∧
     (ClippyConfiguration.new "a".toList "t".toList "d".toList
      "bad".toList none).doc = ERROR_DOC) :=
  ⟨(C5_record_invariant_amended "a".toList "t".toList "d".toList
      " Lint: FOO. Doc.".toList none).1 (by decide),
   (C5_record_invariant_amended "a".toList "t".toList "d".toList
      "bad".toList none).2 (by decide)⟩

/-- Claim C6, counterexample: the record built by
`ClippyConfiguration::new` from `" Lint: . D"` has lint list `[""]`, and
`to_markdown_paragraph` panics on it (the `unwrap` of
`split_whitespace().next()` on `""`), modelled as `none` — so paragraph
rendering is not total on constructible records. -/
theorem C6_counterexample :
    ClippyConfiguration.to_markdown_paragraph c6Record = none := by
  decide

/-- Claim C6, amended: `ClippyConfiguration::new` never fails and
cross-reference rendering is total, but paragraph rendering produces
output without panicking only for records whose every lint name
contains a whitespace-free token. -/
theorem C6_totality_amended (r : ClippyConfiguration)
    (h : ∀ l ∈ r.lints, (firstToken l).isSome) :
    (ClippyConfiguration.to_markdown_paragraph r).isSome := by
  have key : ∀ ls : List (List Char),
      (∀ l ∈ ls, (firstToken l).isSome) → (lintBullets ls).isSome := by
    intro ls
    induction ls with
    | nil => intro _; simp [lintBullets]
    | cons l ls ih =>
      intro hl
      have h1 : (firstToken l).isSome := hl l (by simp)
      have h2 := ih (fun x hx => hl x (by simp [hx]))
      rcases Option.isSome_iff_exists.mp h1 with ⟨t, ht⟩
      rcases Option.isSome_iff_exists.mp h2 with ⟨bs, hbs⟩
      simp [lintBullets, lintBullet, ht, hbs]
  rcases Option.isSome_iff_exists.mp (key r.lints h) with ⟨bs, hbs⟩
  simp [ClippyConfiguration.to_markdown_paragraph, hbs]

/-- Claim C6 witness: a record from a well-formed comment renders. -/
theorem C6_witness :
    (∀ l ∈ c6Good.lints, (firstToken l).isSome) ∧
    (ClippyConfiguration.to_markdown_paragraph c6Good).isSome :=
  ⟨by decide, C6_totality_amended c6Good (by decide)⟩

/-- Claim C7: `to_kebab` is idempotent and length-preserving. -/
theorem C7_to_kebab_idempotent_length (s : List Char) :
    to_kebab (to_kebab s) = to_kebab s ∧ (to_kebab s).length = s.length := by
  refine ⟨?_, by simp [to_kebab]⟩
  unfold to_kebab
  rw [List.map_map]
  apply List.map_congr_left
  intro a _
  by_cases h : a = '_' <;> simp [h, Function.comp]

/-- Claim C8: a record whose lint list is `["foo_bar lint"]` renders a
paragraph whose single bullet links the rule index with fragment
`"foo_bar"` — the first whitespace-delimited token, not the full rule
string. -/
theorem C8_bullet_first_token (r : ClippyConfiguration)
    (h : r.lints = ["foo_bar lint".toList]) :
    ClippyConfiguration.to_markdown_paragraph r =
      some (paraPrefix r ++
        ("* [`foo_bar`](https://rust-lang.github.io/rust-clippy/master/index.html#foo_bar)".toList) ++
        "\n\n".toList) := by
  unfold ClippyConfiguration.to_markdown_paragraph
  rw [h]
  rfl

/-- Claim C8 witness at a concrete record. -/
theorem C8_witness :
    (c8Record.lints = ["foo_bar lint".toList]) ∧
    ClippyConfiguration.to_markdown_paragraph c8Record =
      some (paraPrefix c8Record ++
        ("* [`foo_bar`](https://rust-lang.github.io/rust-clippy/master/index.html#foo_bar)".toList) ++
        "\n\n".toList) :=
  ⟨rfl, C8_bullet_first_token c8Record rfl⟩

/-- Claim C9: both renderings are functions of the record alone — equal
records give byte-identical paragraph and cross-reference output (the
embedding's records are immutable, so no mutation is possible). -/
theorem C9_render_deterministic (r1 r2 : ClippyConfiguration) (h : r1 = r2) :
    ClippyConfiguration.to_markdown_paragraph r1 =
      ClippyConfiguration.to_markdown_paragraph r2 ∧
    ClippyConfiguration.to_markdown_link r1 =
      ClippyConfiguration.to_markdown_link r2 := by
  subst h
  exact ⟨rfl, rfl⟩

/-- Claim C9 witness at a concrete record. -/
theorem C9_witness :
    ClippyConfiguration.to_markdown_paragraph c9Record =
      ClippyConfiguration.to_markdown_paragraph c9Record ∧
    ClippyConfiguration.to_markdown_link c9Record =
      ClippyConfiguration.to_markdown_link c9Record :=
  C9_render_deterministic c9Record c9Record rfl

/-- Claim C10: the `Display` impl produces exactly the line
backtick-quoted name, type and default followed by the doc and a final
newline, as a pure function of the record. -/
theorem C10_display_format (r : ClippyConfiguration) :
    ClippyConfiguration.display r =
      "* `".toList ++ r.name ++ "`: `".toList ++ r.config_type ++
        "`(defaults to `".toList ++ r.default ++ "`): ".toList ++ r.doc ++
        "\n".toList :=
  rfl

end Clippy
